import Mathlib

/-!
# goldmark-enclave, `_examples/examples.go`: the `DangerousHTMLRenderer`

A shallow embedding of the four node renderers registered by
`DangerousHTMLFilterExtension` (`renderRawHTML`, `renderHTMLBlock`,
`renderLink`, `renderAutoLink`) and of the classifier `renderLinkIsUrl`.

* A Go `[]byte` (and a Go `string`, which converts to and from `[]byte`
  without changing a byte) is a `List UInt8`.
* The `util.BufWriter` is the list of bytes written so far; every write
  appends.
* A renderer returns `(ast.WalkStatus, error)`; here it returns the buffer
  after the call together with both.  A Go run-time panic (a slice expression
  out of range) is `none`.
* Functions of other packages (goldmark, bluemonday, govalidator) are not part
  of this repository.  They are fields of `Lib`, `Writer` and `Policy`, and
  every theorem holds for all of them.
-/

namespace Enclave

abbrev Bytes := List UInt8

/-! ## Byte literals of the source -/

/-- The string `<kbd>`. -/
def kbdOpen : Bytes := [60, 107, 98, 100, 62]
/-- The string `</kbd>`. -/
def kbdClose : Bytes := [60, 47, 107, 98, 100, 62]
/-- The string `<a href="`. -/
def aHrefOpen : Bytes := [60, 97, 32, 104, 114, 101, 102, 61, 34]
/-- The string `<a href=` (the opening text without the quote). -/
def aHrefEq : Bytes := [60, 97, 32, 104, 114, 101, 102, 61]
/-- The string `</a>`. -/
def aClose : Bytes := [60, 47, 97, 62]
/-- The byte `"`. -/
def dquote : Bytes := [34]
/-- The byte `>`. -/
def gt : Bytes := [62]
/-- The string `">`. -/
def dquoteGt : Bytes := [34, 62]
/-- The string ` title="`. -/
def titleOpen : Bytes := [32, 116, 105, 116, 108, 101, 61, 34]
/-- The string `mailto:`. -/
def mailtoLit : Bytes := [109, 97, 105, 108, 116, 111, 58]

/-! ## Data model (goldmark `ast` and `text`) -/

/-- Go `ast.WalkStatus`. -/
inductive WalkStatus where
  | WalkStop
  | WalkSkipChildren
  | WalkContinue
  deriving DecidableEq, Repr

/-- A Go `error` value; `nil` is `none` of `Option GoError`. -/
abbrev GoError := String

/-- Go `text.Segment`: byte offsets into the source, and the padding the
library keeps with them. -/
structure Segment where
  Start : Int
  Stop : Int
  Padding : Int
  deriving DecidableEq, Repr

/-- Go `ast.RawHTML`: the renderer reads `n.Segments` by `Len()` and `At(i)`. -/
structure RawHTML where
  Segments : List Segment
  deriving DecidableEq, Repr

/-- Go `ast.HTMLBlock`: `n.Lines()` and the field `ClosureLine`. -/
structure HTMLBlock where
  Lines : List Segment
  ClosureLine : Segment
  deriving DecidableEq, Repr

/-- A node attribute (`ast.Attribute`): name and rendered value. -/
structure Attribute where
  Name : Bytes
  Value : Bytes
  deriving DecidableEq, Repr

/-- Go `ast.Link`: `Destination`, `Title` (a nil slice is `none`) and
`Attributes()` (nil is `none`). -/
structure Link where
  Destination : Bytes
  Title : Option Bytes
  Attributes : Option (List Attribute)
  deriving DecidableEq, Repr

/-- Go `ast.AutoLinkType`. -/
inductive AutoLinkType where
  | AutoLinkEmail
  | AutoLinkURL
  deriving DecidableEq, Repr

/-- Go `ast.AutoLink`: the type, the protocol and the segment of its text, and
`Attributes()`. -/
structure AutoLink where
  AutoLinkType : AutoLinkType
  Protocol : Option Bytes
  value : Segment
  Attributes : Option (List Attribute)
  deriving DecidableEq, Repr

/-! ## Collaborators -/

/-- Functions of the libraries the renderer calls. -/
structure Lib where
  /-- Function `govalidator.IsURL`. -/
  IsURL : Bytes → Bool
  /-- Function `html.IsDangerousURL`. -/
  IsDangerousURL : Bytes → Bool
  /-- Function `util.URLEscape(v, resolveReference)`. -/
  URLEscape : Bytes → Bool → Bytes
  /-- Function `util.EscapeHTML`. -/
  EscapeHTML : Bytes → Bytes
  /-- The bytes `html.RenderAttributes(w, n, html.LinkAttributeFilter)`
  appends for a node with these attributes. -/
  RenderAttributes : List Attribute → Bytes
  /-- Method `text.Segment.Value(source)`. -/
  Value : Segment → Bytes → Bytes
  /-- Method `ast.HTMLBlock.HasClosure()`. -/
  HasClosure : HTMLBlock → Bool
  /-- Method `ast.AutoLink.URL(source)`. -/
  URL : AutoLink → Bytes → Bytes
  /-- Method `ast.AutoLink.Label(source)`. -/
  Label : AutoLink → Bytes → Bytes
  /-- Function `bytes.Map(unicode.ToLower, s)`, the path `bytes.ToLower` takes for
  input that has a byte outside ASCII. -/
  mapUnicodeToLower : Bytes → Bytes

/-- Go `html.Writer` (the interface in `html.Config.Writer`): for each method
the bytes it appends to the buffer for the given input. -/
structure Writer where
  Write : Bytes → Bytes
  SecureWrite : Bytes → Bytes

/-- Go `html.Config`: the fields the renderer reads. -/
structure Config where
  Unsafe : Bool
  Writer : Writer

/-- Go `bluemonday.Policy`: `SanitizeBytes`. -/
structure Policy where
  SanitizeBytes : Bytes → Bytes

/-- The struct `DangerousHTMLRenderer`: it embeds `goldmarkHTML.Config`. -/
structure DangerousHTMLRenderer extends Config where
  Filter : Policy

/-- What a renderer call leaves: the buffer, the walk status and the error. -/
structure Rendered where
  w : Bytes
  status : WalkStatus
  err : Option GoError
  deriving DecidableEq, Repr

/-! ## Go built-ins and standard library -/

/-- The slice expression `source[lo:hi]`; out of range it panics.  The buffer
is taken with capacity equal to its length. -/
def sliceSource (source : Bytes) (lo hi : Int) : Option Bytes :=
  if 0 ≤ lo ∧ lo ≤ hi ∧ hi ≤ (source.length : Int) then
    some ((source.drop lo.toNat).take (hi.toNat - lo.toNat))
  else
    none

/-- Go `regexp.MatchString("^/", s)`: without the multi-line flag `^` matches
at the start of the text only, so the pattern matches exactly the strings
whose first byte is `/`. -/
def matchCaretSlash : Bytes → Bool
  | [] => false
  | c :: _ => c == 47

/-- The ASCII branch of `bytes.ToLower`: `c += 'a' - 'A'` for `'A' <= c <= 'Z'`. -/
def asciiLower (c : UInt8) : UInt8 :=
  if 65 ≤ c ∧ c ≤ 90 then c + 32 else c

/-- Go `bytes.ToLower`: input that is all ASCII (every byte below
`utf8.RuneSelf`) is lowered byte by byte; other input goes through
`bytes.Map(unicode.ToLower, s)`. -/
def toLower (lib : Lib) (s : Bytes) : Bytes :=
  if s.all (fun c => c < 128) then s.map asciiLower else lib.mapUnicodeToLower s

/-- Go `bytes.HasPrefix(s, p)`. -/
def hasPrefixBytes (s p : Bytes) : Bool :=
  p.isPrefixOf s

/-! ## The renderer -/

/-- Method `renderLinkIsUrl`: `isURL || isPath`. -/
def renderLinkIsUrl (lib : Lib) (verifyUrl : Bytes) : Bool :=
  let isURL := lib.IsURL verifyUrl
  let isPath := matchCaretSlash verifyUrl
  isURL || isPath

/-- The loop of `renderRawHTML` over the segments still to visit. -/
def renderRawHTMLLoop (lib : Lib) (r : DangerousHTMLRenderer) (source : Bytes) :
    List Segment → Bytes → Option Bytes
  | [], w => some w
  | segment :: rest, w =>
    match sliceSource source segment.Start segment.Stop with
    | none => none
    | some text =>
      if text = kbdOpen ∨ text = kbdClose then
        renderRawHTMLLoop lib r source rest (w ++ lib.Value segment source)
      else
        renderRawHTMLLoop lib r source rest
          (w ++ r.Filter.SanitizeBytes (lib.Value segment source))

/-- Method `renderRawHTML`. -/
def renderRawHTML (lib : Lib) (r : DangerousHTMLRenderer) (w source : Bytes)
    (n : RawHTML) (entering : Bool) : Option Rendered :=
  if !entering then
    some ⟨w, WalkStatus.WalkSkipChildren, none⟩
  else
    match renderRawHTMLLoop lib r source n.Segments w with
    | none => none
    | some w1 => some ⟨w1, WalkStatus.WalkSkipChildren, none⟩

/-- The loop of `renderHTMLBlock` over the lines still to visit. -/
def renderHTMLBlockLoop (lib : Lib) (r : DangerousHTMLRenderer) (source : Bytes) :
    List Segment → Bytes → Bytes
  | [], w => w
  | line :: rest, w =>
    renderHTMLBlockLoop lib r source rest
      (w ++ r.Writer.SecureWrite (r.Filter.SanitizeBytes (lib.Value line source)))

/-- Method `renderHTMLBlock`. -/
def renderHTMLBlock (lib : Lib) (r : DangerousHTMLRenderer) (w source : Bytes)
    (n : HTMLBlock) (entering : Bool) : Rendered :=
  if entering then
    ⟨renderHTMLBlockLoop lib r source n.Lines w, WalkStatus.WalkContinue, none⟩
  else
    if lib.HasClosure n then
      let closure := n.ClosureLine
      ⟨w ++ r.Writer.SecureWrite (lib.Value closure source), WalkStatus.WalkContinue, none⟩
    else
      ⟨w, WalkStatus.WalkContinue, none⟩

/-- Method `renderLink`. -/
def renderLink (lib : Lib) (r : DangerousHTMLRenderer) (w _source : Bytes)
    (n : Link) (entering : Bool) : Rendered :=
  if entering && renderLinkIsUrl lib n.Destination then
    let w1 := w ++ aHrefOpen
    let w2 :=
      if r.Unsafe || !lib.IsDangerousURL n.Destination then
        w1 ++ lib.EscapeHTML (lib.URLEscape n.Destination true)
      else w1
    let w3 := w2 ++ dquote
    let w4 :=
      match n.Title with
      | some title => w3 ++ titleOpen ++ r.Writer.Write title ++ dquote
      | none => w3
    let w5 :=
      match n.Attributes with
      | some attrs => w4 ++ lib.RenderAttributes attrs
      | none => w4
    ⟨w5 ++ gt, WalkStatus.WalkContinue, none⟩
  else
    ⟨w ++ aClose, WalkStatus.WalkContinue, none⟩

/-- Method `renderAutoLink`. -/
def renderAutoLink (lib : Lib) (_r : DangerousHTMLRenderer) (w source : Bytes)
    (n : AutoLink) (entering : Bool) : Rendered :=
  if !entering || !renderLinkIsUrl lib (lib.URL n source) then
    ⟨w, WalkStatus.WalkContinue, none⟩
  else
    let w1 := w ++ aHrefOpen
    let url := lib.URL n source
    let label := lib.Label n source
    let w2 :=
      if n.AutoLinkType = AutoLinkType.AutoLinkEmail
          ∧ ¬ hasPrefixBytes (toLower lib url) mailtoLit = true then
        w1 ++ mailtoLit
      else w1
    let w3 := w2 ++ lib.EscapeHTML (lib.URLEscape url false)
    let w4 :=
      match n.Attributes with
      | some attrs => w3 ++ dquote ++ lib.RenderAttributes attrs ++ gt
      | none => w3 ++ dquoteGt
    let w5 := w4 ++ lib.EscapeHTML label
    ⟨w5 ++ aClose, WalkStatus.WalkContinue, none⟩

/-! ## Reading of the claims -/

/-- The text of a segment, `source[Start:Stop]`, for a segment that lies in
the buffer. -/
def segmentText (source : Bytes) (s : Segment) : Bytes :=
  (source.drop s.Start.toNat).take (s.Stop.toNat - s.Start.toNat)

/-- A segment lies in the source buffer. -/
def Segment.InSource (s : Segment) (source : Bytes) : Prop :=
  0 ≤ s.Start ∧ s.Start ≤ s.Stop ∧ s.Stop ≤ (source.length : Int)

instance (s : Segment) (source : Bytes) : Decidable (s.InSource source) := by
  unfold Segment.InSource; infer_instance

/-- What the raw-HTML contract prescribes for one segment: the segment's
bytes as they are when its text is `<kbd>` or `</kbd>`, the filtered bytes
otherwise. -/
def rawHTMLChunkSpec (lib : Lib) (r : DangerousHTMLRenderer) (source : Bytes)
    (seg : Segment) : Bytes :=
  if segmentText source seg = kbdOpen ∨ segmentText source seg = kbdClose then
    lib.Value seg source
  else
    r.Filter.SanitizeBytes (lib.Value seg source)

/-- What the link contract prescribes inside the `href` quotes: nothing for
a dangerous destination when the unsafe flag is off, the escaped destination
otherwise. -/
def hrefValueSpec (lib : Lib) (r : DangerousHTMLRenderer) (d : Bytes) : Bytes :=
  if r.Unsafe = false ∧ lib.IsDangerousURL d = true then []
  else lib.EscapeHTML (lib.URLEscape d true)

/-- The `title` attribute text of a link, empty without a title. -/
def titleText (r : DangerousHTMLRenderer) (title : Option Bytes) : Bytes :=
  match title with
  | some t => titleOpen ++ r.Writer.Write t ++ dquote
  | none => []

/-- The rendered attributes of a node, empty when `Attributes()` is nil. -/
def attrText (lib : Lib) (attrs : Option (List Attribute)) : Bytes :=
  match attrs with
  | some a => lib.RenderAttributes a
  | none => []

/-- What the autolink contract prescribes right after `<a href="`:
`mailto:` for an email autolink whose URL does not start with `mailto:` in
any letter case, nothing otherwise. -/
def mailtoPartSpec (lib : Lib) (n : AutoLink) (u : Bytes) : Bytes :=
  if n.AutoLinkType = AutoLinkType.AutoLinkEmail
      ∧ hasPrefixBytes (toLower lib u) mailtoLit = false then mailtoLit
  else []

/-- The end of an autolink's opening tag: `"`, the attributes and `>`. -/
def autoLinkTagEnd (lib : Lib) (attrs : Option (List Attribute)) : Bytes :=
  match attrs with
  | some a => dquote ++ lib.RenderAttributes a ++ gt
  | none => dquoteGt

/-! ## Stand-ins for the collaborators

Concrete functions for evaluating the renderer on examples.  Each agrees with
the library function it stands for on the inputs used in this file. -/

/-- Stand-in for `util.EscapeHTML`: `&`, `<`, `>`, `"` become entities. -/
def standInEscapeHTML (s : Bytes) : Bytes :=
  s.flatMap (fun c =>
    if c = 38 then [38, 97, 109, 112, 59]
    else if c = 60 then [38, 108, 116, 59]
    else if c = 62 then [38, 103, 116, 59]
    else if c = 34 then [38, 113, 117, 111, 116, 59]
    else [c])

/-- Stand-in for `util.URLEscape`: a space, `[` and a backslash are
percent-encoded. -/
def standInURLEscape (s : Bytes) (_resolveReference : Bool) : Bytes :=
  s.flatMap (fun c =>
    if c = 32 then [37, 50, 48]
    else if c = 91 then [37, 53, 66]
    else if c = 92 then [37, 53, 67]
    else [c])

/-- The string `javascript:`. -/
def javascriptLit : Bytes := [106, 97, 118, 97, 115, 99, 114, 105, 112, 116, 58]

/-- Stand-in for the function table of the libraries. -/
def standInLib : Lib where
  IsURL := fun s => s.contains 46
  IsDangerousURL := fun s => javascriptLit.isPrefixOf (s.map asciiLower)
  URLEscape := standInURLEscape
  EscapeHTML := standInEscapeHTML
  RenderAttributes := fun attrs =>
    attrs.flatMap (fun a => [32] ++ a.Name ++ [61, 34] ++ standInEscapeHTML a.Value ++ [34])
  Value := fun seg source => List.replicate seg.Padding.toNat 32 ++ segmentText source seg
  HasClosure := fun n => decide (0 ≤ n.ClosureLine.Start)
  URL := fun n source =>
    match n.Protocol with
    | some p => p ++ [58, 47, 47] ++ segmentText source n.value
    | none => segmentText source n.value
  Label := fun n source => segmentText source n.value
  mapUnicodeToLower := fun s => s

/-- Stand-in for the renderer: the default configuration (`Unsafe` off), a
writer that escapes HTML and replaces NUL bytes, and a filter that drops
angle brackets. -/
def standInRenderer : DangerousHTMLRenderer where
  Unsafe := false
  Writer :=
    { Write := standInEscapeHTML
      SecureWrite := fun s => s.flatMap (fun c => if c = 0 then [239, 191, 189] else [c]) }
  Filter := { SanitizeBytes := fun s => s.filter (fun c => c != 60 && c != 62) }

/-- The string `<KBD>`. -/
def kbdUpper : Bytes := [60, 75, 66, 68, 62]
/-- The string `<kbd >`. -/
def kbdSpaced : Bytes := [60, 107, 98, 100, 32, 62]

/-! ## Lemmas on the loops -/

theorem sliceSource_of_inSource (source : Bytes) (seg : Segment)
    (h : seg.InSource source) :
    sliceSource source seg.Start seg.Stop = some (segmentText source seg) := by
  unfold Segment.InSource at h
  simp [sliceSource, segmentText, h]

theorem renderRawHTMLLoop_eq (lib : Lib) (r : DangerousHTMLRenderer) (source : Bytes) :
    ∀ (segs : List Segment) (w : Bytes), (∀ seg ∈ segs, seg.InSource source) →
      renderRawHTMLLoop lib r source segs w
        = some (w ++ (segs.map (rawHTMLChunkSpec lib r source)).flatten) := by
  intro segs
  induction segs with
  | nil => intro w _; simp [renderRawHTMLLoop]
  | cons seg rest ih =>
    intro w h
    have hseg : seg.InSource source := h seg (List.mem_cons_self _ _)
    have hrest : ∀ s ∈ rest, s.InSource source :=
      fun s hs => h s (List.mem_cons_of_mem _ hs)
    rw [renderRawHTMLLoop, sliceSource_of_inSource source seg hseg]
    by_cases hk : segmentText source seg = kbdOpen ∨ segmentText source seg = kbdClose
    · simp only [hk, if_true]
      rw [ih _ hrest]
      simp [rawHTMLChunkSpec, hk, List.append_assoc]
    · simp only [hk, if_false]
      rw [ih _ hrest]
      simp [rawHTMLChunkSpec, hk, List.append_assoc]

theorem renderHTMLBlockLoop_eq (lib : Lib) (r : DangerousHTMLRenderer) (source : Bytes) :
    ∀ (lines : List Segment) (w : Bytes),
      renderHTMLBlockLoop lib r source lines w
        = w ++ (lines.map (fun line =>
            r.Writer.SecureWrite (r.Filter.SanitizeBytes (lib.Value line source)))).flatten := by
  intro lines
  induction lines with
  | nil => intro w; simp [renderHTMLBlockLoop]
  | cons line rest ih =>
    intro w
    rw [renderHTMLBlockLoop, ih]
    simp [List.append_assoc]

theorem renderLinkIsUrl_iff (lib : Lib) (s : Bytes) :
    renderLinkIsUrl lib s = true ↔ (lib.IsURL s = true ∨ ∃ rest, s = 47 :: rest) := by
  cases s with
  | nil => simp [renderLinkIsUrl, matchCaretSlash]
  | cons c rest => simp [renderLinkIsUrl, matchCaretSlash]

/-! ## The claims -/

/-- C1: for every RawHTML node whose segments lie in the source buffer, the
entering visit of `renderRawHTML` appends exactly the concatenation, in
segment order, of the segment's bytes as they are when the segment's text is
exactly `<kbd>` or `</kbd>` and of the filtered bytes otherwise; the texts
`<KBD>` and `<kbd >` do not qualify and are filtered; the leaving visit
appends nothing; both visits return `WalkSkipChildren` and a nil error. -/
theorem renderRawHTML_contract (lib : Lib) (r : DangerousHTMLRenderer) (w source : Bytes)
    (n : RawHTML) (h : ∀ seg ∈ n.Segments, seg.InSource source) :
    renderRawHTML lib r w source n true
        = some ⟨w ++ (n.Segments.map (rawHTMLChunkSpec lib r source)).flatten,
            WalkStatus.WalkSkipChildren, none⟩
      ∧ renderRawHTML lib r w source n false = some ⟨w, WalkStatus.WalkSkipChildren, none⟩
      ∧ (∀ seg, segmentText source seg = kbdOpen ∨ segmentText source seg = kbdClose →
          rawHTMLChunkSpec lib r source seg = lib.Value seg source)
      ∧ (∀ seg, ¬ (segmentText source seg = kbdOpen ∨ segmentText source seg = kbdClose) →
          rawHTMLChunkSpec lib r source seg = r.Filter.SanitizeBytes (lib.Value seg source))
      ∧ (∀ seg, segmentText source seg = kbdUpper ∨ segmentText source seg = kbdSpaced →
          rawHTMLChunkSpec lib r source seg = r.Filter.SanitizeBytes (lib.Value seg source)) := by
  refine ⟨?_, ?_, ?_, ?_, ?_⟩
  · simp [renderRawHTML, renderRawHTMLLoop_eq lib r source n.Segments w h]
  · simp [renderRawHTML]
  · intro seg hk
    simp [rawHTMLChunkSpec, hk]
  · intro seg hk
    simp [rawHTMLChunkSpec, hk]
  · intro seg hk
    have hne : ¬ (segmentText source seg = kbdOpen ∨ segmentText source seg = kbdClose) := by
      rcases hk with hk | hk <;> rw [hk] <;> decide
    simp [rawHTMLChunkSpec, hne]

/-- C1, at a node of three segments `<kbd>`, `<KBD>`, `</kbd>` of the source
`<kbd><KBD></kbd>`: the first and the last are appended as they are, the
middle one filtered. -/
theorem renderRawHTML_contract_witness :
    renderRawHTML standInLib standInRenderer [] (kbdOpen ++ kbdUpper ++ kbdClose)
        ⟨[⟨0, 5, 0⟩, ⟨5, 10, 0⟩, ⟨10, 16, 0⟩]⟩ true
      = some ⟨kbdOpen ++ [75, 66, 68] ++ kbdClose, WalkStatus.WalkSkipChildren, none⟩ := by
  have h := (renderRawHTML_contract standInLib standInRenderer []
    (kbdOpen ++ kbdUpper ++ kbdClose) ⟨[⟨0, 5, 0⟩, ⟨5, 10, 0⟩, ⟨10, 16, 0⟩]⟩
    (by decide)).1
  rw [h]
  decide

/-- C2, the code at the leaving visit of an HTML block that has a closure
line: `renderHTMLBlock` appends `SecureWrite` of the closure line's bytes and
the filter takes no part in it (replacing the filter by any other leaves the
result unchanged), so these source bytes reach the buffer unfiltered. -/
theorem renderHTMLBlock_leaving_closure_unfiltered (lib : Lib) (r : DangerousHTMLRenderer)
    (w source : Bytes) (n : HTMLBlock) (h : lib.HasClosure n = true) :
    renderHTMLBlock lib r w source n false
        = ⟨w ++ r.Writer.SecureWrite (lib.Value n.ClosureLine source),
            WalkStatus.WalkContinue, none⟩
      ∧ ∀ f : Policy, renderHTMLBlock lib { r with Filter := f } w source n false
          = renderHTMLBlock lib r w source n false := by
  constructor
  · simp [renderHTMLBlock, h]
  · intro f
    simp [renderHTMLBlock, h]

/-- The source `<!--`, newline, `--><script>`. -/
def commentBlockSource : Bytes :=
  [60, 33, 45, 45, 10, 45, 45, 62, 60, 115, 99, 114, 105, 112, 116, 62]

/-- The HTML block of `commentBlockSource`: one line `<!--` and the closure
line `--><script>`. -/
def commentBlock : HTMLBlock := ⟨[⟨0, 5, 0⟩], ⟨5, 16, 0⟩⟩

/-- C2, at the block `<!--` / `--><script>`: the leaving visit appends the
closure line `--><script>` byte for byte; that is neither the filtered line
nor `<kbd>` nor `</kbd>`. -/
theorem renderHTMLBlock_leaving_closure_unfiltered_witness :
    standInLib.HasClosure commentBlock = true
      ∧ (renderHTMLBlock standInLib standInRenderer [] commentBlockSource commentBlock false).w
          = [45, 45, 62, 60, 115, 99, 114, 105, 112, 116, 62]
      ∧ (renderHTMLBlock standInLib standInRenderer [] commentBlockSource commentBlock false).w
          ≠ standInRenderer.Writer.SecureWrite (standInRenderer.Filter.SanitizeBytes
              (standInLib.Value commentBlock.ClosureLine commentBlockSource))
      ∧ (renderHTMLBlock standInLib standInRenderer [] commentBlockSource commentBlock false).w
          ≠ kbdOpen
      ∧ (renderHTMLBlock standInLib standInRenderer [] commentBlockSource commentBlock false).w
          ≠ kbdClose := by
  have h := (renderHTMLBlock_leaving_closure_unfiltered standInLib standInRenderer []
    commentBlockSource commentBlock (by decide)).1
  rw [h]
  decide

/-- C3, the code at the entering visit of a link whose destination the
classifier rejects: `renderLink` takes the `else` branch and appends `</a>`
(and returns `WalkContinue`), it does not leave the buffer as it was. -/
theorem renderLink_entering_rejected_writes_close (lib : Lib) (r : DangerousHTMLRenderer)
    (w source : Bytes) (n : Link) (h : renderLinkIsUrl lib n.Destination = false) :
    renderLink lib r w source n true = ⟨w ++ aClose, WalkStatus.WalkContinue, none⟩
      ∧ (renderLink lib r w source n true).w ≠ w := by
  have e : renderLink lib r w source n true = ⟨w ++ aClose, WalkStatus.WalkContinue, none⟩ := by
    simp [renderLink, h]
  refine ⟨e, ?_⟩
  rw [e]
  simp [aClose]

/-- C3, at a link with the empty destination and an empty buffer: the
entering visit leaves `</a>` in the buffer. -/
theorem renderLink_entering_rejected_writes_close_witness :
    renderLinkIsUrl standInLib [] = false
      ∧ renderLink standInLib standInRenderer [] [] ⟨[], none, none⟩ true
          = ⟨[60, 47, 97, 62], WalkStatus.WalkContinue, none⟩ :=
  ⟨by decide,
   (renderLink_entering_rejected_writes_close standInLib standInRenderer [] []
      ⟨[], none, none⟩ (by decide)).1⟩

/-- C4: for every link and configuration the leaving visit of `renderLink`
appends exactly `</a>`; for a link whose destination the classifier rejects,
what either visit appends does not contain `<a href=`; both visits return
`WalkContinue` and a nil error. -/
theorem renderLink_leaving_closes (lib : Lib) (r : DangerousHTMLRenderer)
    (w source : Bytes) (n : Link) :
    renderLink lib r w source n false = ⟨w ++ aClose, WalkStatus.WalkContinue, none⟩
      ∧ (renderLinkIsUrl lib n.Destination = false →
          ∀ entering : Bool, ∃ written,
            (renderLink lib r w source n entering).w = w ++ written
              ∧ ¬ List.IsInfix aHrefEq written)
      ∧ (∀ entering : Bool,
          (renderLink lib r w source n entering).status = WalkStatus.WalkContinue
            ∧ (renderLink lib r w source n entering).err = none) := by
  refine ⟨by simp [renderLink], ?_, ?_⟩
  · intro h entering
    refine ⟨aClose, ?_, by decide⟩
    cases entering <;> simp [renderLink, h]
  · intro entering
    unfold renderLink
    split <;> simp

/-- C4, at a link with the rejected destination `foo`: each of the two visits
appends `</a>`. -/
theorem renderLink_leaving_closes_witness :
    renderLinkIsUrl standInLib [102, 111, 111] = false
      ∧ ∀ entering : Bool, ∃ written,
          (renderLink standInLib standInRenderer [] [] ⟨[102, 111, 111], none, none⟩ entering).w
              = [] ++ written
            ∧ ¬ List.IsInfix aHrefEq written :=
  ⟨by decide,
   (renderLink_leaving_closes standInLib standInRenderer [] []
      ⟨[102, 111, 111], none, none⟩).2.1 (by decide)⟩

/-- C5: for every link whose destination `d` the classifier accepts, the
entering visit of `renderLink` appends `<a href="`, then `V`, then `"`, then
the title attribute when there is a title, then the rendered attributes when
there are any, then `>`; `V` is empty when the unsafe flag is off and `d` is
dangerous, and is `EscapeHTML(URLEscape(d, true))` when the unsafe flag is on
or `d` is not dangerous. -/
theorem renderLink_entering_accepted (lib : Lib) (r : DangerousHTMLRenderer)
    (w source : Bytes) (n : Link) (h : renderLinkIsUrl lib n.Destination = true) :
    renderLink lib r w source n true
        = ⟨w ++ aHrefOpen ++ hrefValueSpec lib r n.Destination ++ dquote
              ++ titleText r n.Title ++ attrText lib n.Attributes ++ gt,
            WalkStatus.WalkContinue, none⟩
      ∧ (r.Unsafe = false → lib.IsDangerousURL n.Destination = true →
          hrefValueSpec lib r n.Destination = [])
      ∧ (r.Unsafe = true ∨ lib.IsDangerousURL n.Destination = false →
          hrefValueSpec lib r n.Destination
            = lib.EscapeHTML (lib.URLEscape n.Destination true)) := by
  refine ⟨?_, ?_, ?_⟩
  · cases hu : r.Unsafe <;> cases hd : lib.IsDangerousURL n.Destination <;>
      cases ht : n.Title <;> cases ha : n.Attributes <;>
      simp [renderLink, h, hrefValueSpec, titleText, attrText, hu, hd, ht, ha,
        List.append_assoc]
  · intro hu hd
    simp [hrefValueSpec, hu, hd]
  · intro hud
    rcases hud with hu | hd
    · simp [hrefValueSpec, hu]
    · simp [hrefValueSpec, hd]

/-- C5, at the accepted and dangerous destination `javascript:a@b.c` with
the unsafe flag off: the entering visit leaves `<a href="">`. -/
theorem renderLink_entering_accepted_witness :
    renderLinkIsUrl standInLib (javascriptLit ++ [97, 64, 98, 46, 99]) = true
      ∧ standInLib.IsDangerousURL (javascriptLit ++ [97, 64, 98, 46, 99]) = true
      ∧ renderLink standInLib standInRenderer [] []
            ⟨javascriptLit ++ [97, 64, 98, 46, 99], none, none⟩ true
          = ⟨[60, 97, 32, 104, 114, 101, 102, 61, 34, 34, 62],
              WalkStatus.WalkContinue, none⟩ := by
  refine ⟨by decide, by decide, ?_⟩
  rw [(renderLink_entering_accepted standInLib standInRenderer [] []
    ⟨javascriptLit ++ [97, 64, 98, 46, 99], none, none⟩ (by decide)).1]
  decide

/-- C6: for every HTML block the entering visit of `renderHTMLBlock` appends,
for each line in order, `SecureWrite(SanitizeBytes(line))` and nothing else;
the leaving visit appends `SecureWrite(closureLine)`, unfiltered, when the
block has a closure and nothing when it has none; so the two visits one after
the other append the lines and then the closure line once, exactly when
present; both visits return `WalkContinue` and a nil error. -/
theorem renderHTMLBlock_contract (lib : Lib) (r : DangerousHTMLRenderer)
    (w source : Bytes) (n : HTMLBlock) :
    renderHTMLBlock lib r w source n true
        = ⟨w ++ (n.Lines.map (fun line =>
              r.Writer.SecureWrite (r.Filter.SanitizeBytes (lib.Value line source)))).flatten,
            WalkStatus.WalkContinue, none⟩
      ∧ renderHTMLBlock lib r w source n false
        = ⟨w ++ (if lib.HasClosure n = true
                  then r.Writer.SecureWrite (lib.Value n.ClosureLine source) else []),
            WalkStatus.WalkContinue, none⟩
      ∧ renderHTMLBlock lib r (renderHTMLBlock lib r w source n true).w source n false
        = ⟨w ++ (n.Lines.map (fun line =>
              r.Writer.SecureWrite (r.Filter.SanitizeBytes (lib.Value line source)))).flatten
              ++ (if lib.HasClosure n = true
                  then r.Writer.SecureWrite (lib.Value n.ClosureLine source) else []),
            WalkStatus.WalkContinue, none⟩ := by
  have hloop := renderHTMLBlockLoop_eq lib r source n.Lines w
  refine ⟨?_, ?_, ?_⟩
  · simp [renderHTMLBlock, hloop]
  · cases hc : lib.HasClosure n <;> simp [renderHTMLBlock, hc]
  · cases hc : lib.HasClosure n <;> simp [renderHTMLBlock, hc, hloop]

theorem renderAutoLink_rendered (lib : Lib) (r : DangerousHTMLRenderer)
    (w source : Bytes) (n : AutoLink)
    (h : renderLinkIsUrl lib (lib.URL n source) = true) :
    renderAutoLink lib r w source n true
      = ⟨w ++ aHrefOpen ++ mailtoPartSpec lib n (lib.URL n source)
            ++ lib.EscapeHTML (lib.URLEscape (lib.URL n source) false)
            ++ autoLinkTagEnd lib n.Attributes
            ++ lib.EscapeHTML (lib.Label n source) ++ aClose,
          WalkStatus.WalkContinue, none⟩ := by
  cases ha : n.Attributes <;>
    by_cases hm : (n.AutoLinkType = AutoLinkType.AutoLinkEmail
      ∧ hasPrefixBytes (toLower lib (lib.URL n source)) mailtoLit = false) <;>
    simp [renderAutoLink, h, mailtoPartSpec, autoLinkTagEnd, ha, hm, List.append_assoc]

/-- The string `foo@bar.com`. -/
def fooAtBar : Bytes := [102, 111, 111, 64, 98, 97, 114, 46, 99, 111, 109]
/-- The string `href="mailto:foo@bar.com"`. -/
def hrefMailtoFoo : Bytes := [104, 114, 101, 102, 61, 34] ++ mailtoLit ++ fooAtBar ++ [34]
/-- The string `MAILTO:a@b.c`. -/
def mailtoUpperExample : Bytes := [77, 65, 73, 76, 84, 79, 58, 97, 64, 98, 46, 99]

/-- C7: for every autolink whose URL `u` the classifier accepts, the entering
visit of `renderAutoLink` appends `<a href="`, then `mailto:` exactly when
the autolink is of email type and the lowered `u` does not start with
`mailto:`, then `EscapeHTML(URLEscape(u, false))`; a non-email autolink gets
no `mailto:`, neither does the URL `MAILTO:a@b.c`; and an email autolink with
the URL `foo@bar.com`, which the escapes leave as it is, yields output that
contains `href="mailto:foo@bar.com"`. -/
theorem renderAutoLink_mailto (lib : Lib) (r : DangerousHTMLRenderer)
    (w source : Bytes) (n : AutoLink)
    (h : renderLinkIsUrl lib (lib.URL n source) = true) :
    (∃ rest, (renderAutoLink lib r w source n true).w
        = w ++ aHrefOpen ++ mailtoPartSpec lib n (lib.URL n source)
            ++ lib.EscapeHTML (lib.URLEscape (lib.URL n source) false) ++ rest)
      ∧ (mailtoPartSpec lib n (lib.URL n source) = mailtoLit ↔
          (n.AutoLinkType = AutoLinkType.AutoLinkEmail
            ∧ hasPrefixBytes (toLower lib (lib.URL n source)) mailtoLit = false))
      ∧ (mailtoPartSpec lib n (lib.URL n source) ≠ mailtoLit →
          mailtoPartSpec lib n (lib.URL n source) = [])
      ∧ (n.AutoLinkType ≠ AutoLinkType.AutoLinkEmail →
          mailtoPartSpec lib n (lib.URL n source) = [])
      ∧ (lib.URL n source = mailtoUpperExample →
          mailtoPartSpec lib n (lib.URL n source) = [])
      ∧ (n.AutoLinkType = AutoLinkType.AutoLinkEmail → lib.URL n source = fooAtBar →
          lib.EscapeHTML (lib.URLEscape fooAtBar false) = fooAtBar →
          List.IsInfix hrefMailtoFoo (renderAutoLink lib r w source n true).w) := by
  have hr := renderAutoLink_rendered lib r w source n h
  refine ⟨?_, ?_, ?_, ?_, ?_, ?_⟩
  · refine ⟨autoLinkTagEnd lib n.Attributes ++ lib.EscapeHTML (lib.Label n source) ++ aClose, ?_⟩
    rw [hr]
    simp [List.append_assoc]
  · unfold mailtoPartSpec
    split
    · next hc => simp [hc]
    · next hc =>
      constructor
      · intro he
        exact absurd he.symm (by decide)
      · intro hc2
        exact absurd hc2 hc
  · intro hne
    unfold mailtoPartSpec at hne ⊢
    split
    · next hc => simp [hc] at hne
    · rfl
  · intro hne
    simp [mailtoPartSpec, hne]
  · intro hu
    have hl : hasPrefixBytes (toLower lib mailtoUpperExample) mailtoLit = true := by rfl
    simp [mailtoPartSpec, hu, hl]
  · intro hty hu hesc
    have hl : hasPrefixBytes (toLower lib fooAtBar) mailtoLit = false := by rfl
    have hm : mailtoPartSpec lib n fooAtBar = mailtoLit := by
      simp [mailtoPartSpec, hty, hl]
    rw [hr, hu, hesc, hm]
    refine ⟨w ++ [60, 97, 32],
      List.tail (autoLinkTagEnd lib n.Attributes) ++ lib.EscapeHTML (lib.Label n source) ++ aClose, ?_⟩
    cases ha : n.Attributes <;>
      simp [hrefMailtoFoo, aHrefOpen, autoLinkTagEnd, dquote, dquoteGt, List.append_assoc]

/-- The email autolink over the whole of the source `foo@bar.com`. -/
def fooAutoLink : AutoLink := ⟨AutoLinkType.AutoLinkEmail, none, ⟨0, 11, 0⟩, none⟩

/-- C7, at the email autolink `foo@bar.com`: the output contains
`href="mailto:foo@bar.com"`. -/
theorem renderAutoLink_mailto_witness :
    renderLinkIsUrl standInLib (standInLib.URL fooAutoLink fooAtBar) = true
      ∧ List.IsInfix hrefMailtoFoo
          (renderAutoLink standInLib standInRenderer [] fooAtBar fooAutoLink true).w :=
  ⟨by decide,
   (renderAutoLink_mailto standInLib standInRenderer [] fooAtBar fooAutoLink
      (by decide)).2.2.2.2.2 (by decide) (by decide) (by decide)⟩

/-- The string `https://example.com/\[\`. -/
def backslashURL : Bytes :=
  [104, 116, 116, 112, 115, 58, 47, 47, 101, 120, 97, 109, 112, 108, 101, 46, 99, 111, 109,
    47, 92, 91, 92]

/-- The string `https://example.com/%5C%5B%5C`. -/
def backslashURLEscaped : Bytes :=
  [104, 116, 116, 112, 115, 58, 47, 47, 101, 120, 97, 109, 112, 108, 101, 46, 99, 111, 109,
    47, 37, 53, 67, 37, 53, 66, 37, 53, 67]

/-- The URL autolink over the whole of the source `backslashURL`. -/
def backslashAutoLink : AutoLink := ⟨AutoLinkType.AutoLinkURL, none, ⟨0, 23, 0⟩, none⟩

/-- C8 as stated fails at the autolink `<https://example.com/\[\>`: the
classifier accepts the URL, the URL-escaped label is
`https://example.com/%5C%5B%5C`, and the output is
`<a href="https://example.com/%5C%5B%5C">https://example.com/\[\</a>`, which
does not end in `>`, the URL-escaped and HTML-escaped label, `</a>`. -/
theorem autoLink_label_urlEscaped_fails :
    renderLinkIsUrl standInLib (standInLib.URL backslashAutoLink backslashURL) = true
      ∧ standInLib.EscapeHTML
          (standInLib.URLEscape (standInLib.Label backslashAutoLink backslashURL) false)
          = backslashURLEscaped
      ∧ (renderAutoLink standInLib standInRenderer [] backslashURL backslashAutoLink true).w
          = aHrefOpen ++ backslashURLEscaped ++ dquoteGt ++ backslashURL ++ aClose
      ∧ ¬ List.IsSuffix
          (gt ++ standInLib.EscapeHTML
            (standInLib.URLEscape (standInLib.Label backslashAutoLink backslashURL) false)
            ++ aClose)
          (renderAutoLink standInLib standInRenderer [] backslashURL backslashAutoLink true).w := by
  decide

/-- C8, amended: for every autolink whose URL the classifier accepts, the
entering visit of `renderAutoLink` appends the opening tag (`<a href="`, the
optional `mailto:`, the escaped URL, `"`, the attributes, `>`), then the
label after HTML-escaping only, `EscapeHTML(label)`, then `</a>`. -/
theorem renderAutoLink_label (lib : Lib) (r : DangerousHTMLRenderer)
    (w source : Bytes) (n : AutoLink)
    (h : renderLinkIsUrl lib (lib.URL n source) = true) :
    (renderAutoLink lib r w source n true).w
      = (w ++ aHrefOpen ++ mailtoPartSpec lib n (lib.URL n source)
            ++ lib.EscapeHTML (lib.URLEscape (lib.URL n source) false)
            ++ autoLinkTagEnd lib n.Attributes)
          ++ lib.EscapeHTML (lib.Label n source) ++ aClose := by
  rw [renderAutoLink_rendered lib r w source n h]

/-- C8 amended, at the autolink `<https://example.com/\[\>`: the label in the
output is `https://example.com/\[\`. -/
theorem renderAutoLink_label_witness :
    renderLinkIsUrl standInLib (standInLib.URL backslashAutoLink backslashURL) = true
      ∧ (renderAutoLink standInLib standInRenderer [] backslashURL backslashAutoLink true).w
          = aHrefOpen ++ backslashURLEscaped ++ dquoteGt ++ backslashURL ++ aClose := by
  refine ⟨by decide, ?_⟩
  rw [renderAutoLink_label standInLib standInRenderer [] backslashURL backslashAutoLink
    (by decide)]
  decide

/-- C9: for every string `s`, `renderLinkIsUrl(s)` is true exactly when the
validator accepts `s` or `s` begins with `/`; so every string that begins
with `/` or with `//` is accepted whatever the validator says, a string the
validator rejects and that does not begin with `/` is rejected, the empty
string among them when the validator rejects it; and the result depends on
nothing but the validator and `s`. -/
theorem renderLinkIsUrl_spec (lib : Lib) (s : Bytes) :
    (renderLinkIsUrl lib s = true ↔ (lib.IsURL s = true ∨ ∃ rest, s = 47 :: rest))
      ∧ (∀ rest, renderLinkIsUrl lib (47 :: rest) = true)
      ∧ (∀ rest, renderLinkIsUrl lib (47 :: 47 :: rest) = true)
      ∧ (lib.IsURL s = false → (¬ ∃ rest, s = 47 :: rest) → renderLinkIsUrl lib s = false)
      ∧ (lib.IsURL [] = false → renderLinkIsUrl lib [] = false)
      ∧ (∀ lib2 : Lib, lib2.IsURL = lib.IsURL →
          renderLinkIsUrl lib2 s = renderLinkIsUrl lib s) := by
  refine ⟨renderLinkIsUrl_iff lib s, ?_, ?_, ?_, ?_, ?_⟩
  · intro rest
    simp [renderLinkIsUrl, matchCaretSlash]
  · intro rest
    simp [renderLinkIsUrl, matchCaretSlash]
  · intro hv hp
    have hiff := renderLinkIsUrl_iff lib s
    cases hr : renderLinkIsUrl lib s with
    | false => rfl
    | true =>
      rcases hiff.mp hr with h1 | h2
      · rw [hv] at h1; exact absurd h1 (by decide)
      · exact absurd h2 hp
  · intro hv
    simp [renderLinkIsUrl, matchCaretSlash, hv]
  · intro lib2 heq
    simp [renderLinkIsUrl, heq]

/-- C9, at the empty string and at `foo`, which the stand-in validator
rejects. -/
theorem renderLinkIsUrl_spec_witness :
    standInLib.IsURL [102, 111, 111] = false
      ∧ renderLinkIsUrl standInLib [102, 111, 111] = false
      ∧ renderLinkIsUrl standInLib [] = false :=
  ⟨by decide,
   (renderLinkIsUrl_spec standInLib [102, 111, 111]).2.2.2.1 (by decide) (by simp),
   (renderLinkIsUrl_spec standInLib []).2.2.2.2.1 (by decide)⟩

/-- C10: for every autolink, when the visit is the leaving one or the
classifier rejects the URL, `renderAutoLink` leaves the buffer as it was and
returns `WalkContinue` and a nil error; when the visit is the entering one
and the URL is accepted, what it appends begins with `<a href="` and ends
with `</a>`, and it returns `WalkContinue` and a nil error. -/
theorem renderAutoLink_frame (lib : Lib) (r : DangerousHTMLRenderer)
    (w source : Bytes) (n : AutoLink) (entering : Bool) :
    ((entering = false ∨ renderLinkIsUrl lib (lib.URL n source) = false) →
        renderAutoLink lib r w source n entering = ⟨w, WalkStatus.WalkContinue, none⟩)
      ∧ ((entering = true ∧ renderLinkIsUrl lib (lib.URL n source) = true) →
        ∃ mid, renderAutoLink lib r w source n entering
          = ⟨w ++ (aHrefOpen ++ mid ++ aClose), WalkStatus.WalkContinue, none⟩) := by
  constructor
  · intro h
    rcases h with he | hr
    · simp [renderAutoLink, he]
    · simp [renderAutoLink, hr]
  · intro h
    obtain ⟨he, hr⟩ := h
    subst he
    refine ⟨mailtoPartSpec lib n (lib.URL n source)
      ++ lib.EscapeHTML (lib.URLEscape (lib.URL n source) false)
      ++ autoLinkTagEnd lib n.Attributes ++ lib.EscapeHTML (lib.Label n source), ?_⟩
    rw [renderAutoLink_rendered lib r w source n hr]
    simp [List.append_assoc]

/-- The URL autolink over the whole of the source `foo`, which the classifier
rejects. -/
def rejectedAutoLink : AutoLink := ⟨AutoLinkType.AutoLinkURL, none, ⟨0, 3, 0⟩, none⟩

/-- C10, at three calls: the leaving visit of the autolink `foo@bar.com` and
the entering visit of the rejected autolink `foo` leave the buffer `<kbd>` as
it was; the entering visit of `foo@bar.com` appends an anchor that begins
with `<a href="` and ends with `</a>`. -/
theorem renderAutoLink_frame_witness :
    renderAutoLink standInLib standInRenderer kbdOpen fooAtBar fooAutoLink false
        = ⟨kbdOpen, WalkStatus.WalkContinue, none⟩
      ∧ renderAutoLink standInLib standInRenderer kbdOpen [102, 111, 111] rejectedAutoLink true
        = ⟨kbdOpen, WalkStatus.WalkContinue, none⟩
      ∧ ∃ mid, renderAutoLink standInLib standInRenderer kbdOpen fooAtBar fooAutoLink true
          = ⟨kbdOpen ++ (aHrefOpen ++ mid ++ aClose), WalkStatus.WalkContinue, none⟩ :=
  ⟨(renderAutoLink_frame standInLib standInRenderer kbdOpen fooAtBar fooAutoLink false).1
      (Or.inl rfl),
   (renderAutoLink_frame standInLib standInRenderer kbdOpen [102, 111, 111]
      rejectedAutoLink true).1 (Or.inr (by decide)),
   (renderAutoLink_frame standInLib standInRenderer kbdOpen fooAtBar fooAutoLink true).2
      ⟨rfl, by decide⟩⟩

end Enclave
